import Mathlib

/-!
Verification development for the s3verify test-orchestration core.

The Go sources under verification are shallowly embedded below:
pure helpers become Lean functions, the per-test goroutine bodies become
functions from an execution oracle (the outcomes of the network calls)
to an explicit effect record (channel message, registry writes,
resource-acquisition events), and the single-threaded aggregation loops
become recursive functions over the list of channel results in receive
order.  Bytes are `List Nat`, HTTP headers are association lists, and
machine integers that never overflow in the program are `Nat`/`Int`.
-/

/-- Byte strings are modelled as lists of byte values. -/
abbrev Bytes := List Nat

/-- HTTP headers: an association list of name/value pairs, mirroring
`net/http.Header` restricted to single-valued fields (the source only
ever uses `Set` and `Get`). -/
abbrev Header := List (String × String)

/-- Mirrors `http.Header.Get`: the value of the first pair with the given
name, or the empty string when absent. -/
def Header.get (h : Header) (name : String) : String :=
  match h.find? (fun p => p.1 = name) with
  | some p => p.2
  | none => ""

/-- Mirrors `http.Header.Set`: replaces any existing value for the name
with the single given value. -/
def Header.set (h : Header) (name value : String) : Header :=
  (name, value) :: h.filter (fun p => p.1 ≠ name)

/-- Error values produced by the verification code.  The Go code builds
errors with `fmt.Errorf`; each constructor below corresponds to one
error site and carries the data that the format string interpolates. -/
inductive S3Err
  | transport
  | headerMissing (name : String)
  | badStatus (wanted got : Nat)
  | badStatusStr (wanted got : String)
  | nonEmptyBody (body : Bytes)
  | bodyMismatch (wanted got : Bytes)
  | decodeFailure
  | badErrorCode (got : String)
  | readFull
  deriving DecidableEq, Repr

/-- Model of an `*http.Response` as seen by the verifiers: status code,
status line (compared as a string by the If-Match file), headers and the
fully-read body bytes.  `errorCode` is the result of XML-decoding the
body as a structured S3 error document (`minio.ErrorResponse`): `some c`
when the body decodes to a document whose error-code field is `c`,
`none` when decoding fails. -/
structure HttpResponse where
  statusCode : Nat
  status : String
  header : Header
  body : Bytes
  errorCode : Option String
  deriving DecidableEq, Repr

/-- Modelled from the spec: `verifyStandardHeaders`, the shared
"standard headers present" collaborator, is defined outside the supplied
sources; per the spec it checks that date and request-id-like fields are
present.  Only its pass/fail behaviour matters to the claims below. -/
def verifyStandardHeaders (h : Header) : Option S3Err :=
  if h.get "Date" = "" then some (.headerMissing "Date")
  else if h.get "X-Amz-Request-Id" = "" then some (.headerMissing "X-Amz-Request-Id")
  else none

/- Verifier family of put-object.go. -/

/-- Mirrors `verifyStatusPutObject`. -/
def verifyStatusPutObject (respStatusCode expectedStatusCode : Nat) : Option S3Err :=
  if respStatusCode ≠ expectedStatusCode then
    some (.badStatus expectedStatusCode respStatusCode)
  else none

/-- Mirrors `verifyBodyPutObject`: a PUT response body must be empty. -/
def verifyBodyPutObject (resBody : Bytes) : Option S3Err :=
  if resBody ≠ [] then some (.nonEmptyBody resBody) else none

/-- Mirrors `verifyHeaderPutObject`. -/
def verifyHeaderPutObject (header : Header) : Option S3Err :=
  verifyStandardHeaders header

/-- Mirrors `putObjectVerify`: in the source the header check runs
first, then the status check, then the body check, each returning at the
first failure. -/
def putObjectVerify (res : HttpResponse) (expectedStatusCode : Nat) : Option S3Err :=
  match verifyHeaderPutObject res.header with
  | some e => some e
  | none =>
    match verifyStatusPutObject res.statusCode expectedStatusCode with
    | some e => some e
    | none => verifyBodyPutObject res.body

/- Verifier family of the upload-part file. -/

/-- Mirrors `verifyBodyUploadPart`: the body must be empty. -/
def verifyBodyUploadPart (resBody : Bytes) : Option S3Err :=
  if resBody ≠ [] then some (.nonEmptyBody resBody) else none

/-- Mirrors `verifyStatusUploadPart`. -/
def verifyStatusUploadPart (respStatusCode expectedStatusCode : Nat) : Option S3Err :=
  if respStatusCode ≠ expectedStatusCode then
    some (.badStatus expectedStatusCode respStatusCode)
  else none

/-- Mirrors `verifyHeaderUploadPart`. -/
def verifyHeaderUploadPart (header : Header) : Option S3Err :=
  verifyStandardHeaders header

/-- Mirrors `uploadPartVerify`: in the source the body check runs first,
then the status check, then the header check. -/
def uploadPartVerify (res : HttpResponse) (expectedStatusCode : Nat) : Option S3Err :=
  match verifyBodyUploadPart res.body with
  | some e => some e
  | none =>
    match verifyStatusUploadPart res.statusCode expectedStatusCode with
    | some e => some e
    | none => verifyHeaderUploadPart res.header

/- Verifier family of get-object-if-match.go.  This file compares the
status line as a string and decodes the body as an error document when
the probe is expected to fail. -/

/-- Mirrors `VerifyHeaderGetObjectIfMatch`. -/
def VerifyHeaderGetObjectIfMatch (res : HttpResponse) : Option S3Err :=
  verifyStandardHeaders res.header

/-- Mirrors `VerifyBodyGetObjectIfMatch`: when the probe should fail the
body is XML-decoded as an error document and its code field must equal
"PreconditionFailed"; otherwise the body must equal the uploaded
object bytes. -/
def VerifyBodyGetObjectIfMatch (res : HttpResponse) (objectBody : Bytes)
    (shouldFail : Bool) : Option S3Err :=
  if shouldFail then
    match res.errorCode with
    | none => some .decodeFailure
    | some code =>
      if code ≠ "PreconditionFailed" then some (.badErrorCode code) else none
  else
    if !shouldFail && res.body ≠ objectBody then
      some (.bodyMismatch objectBody res.body)
    else none

/-- Mirrors `VerifyStatusGetObjectIfMatch`: string comparison of the
status line. -/
def VerifyStatusGetObjectIfMatch (res : HttpResponse) (expectedStatus : String) :
    Option S3Err :=
  if res.status ≠ expectedStatus then
    some (.badStatusStr expectedStatus res.status)
  else none

/-- Mirrors `GetObjectIfMatchVerify`: in the source the header check
runs first, then the body check, then the status check. -/
def GetObjectIfMatchVerify (res : HttpResponse) (objectBody : Bytes)
    (expectedStatus : String) (shouldFail : Bool) : Option S3Err :=
  match VerifyHeaderGetObjectIfMatch res with
  | some e => some e
  | none =>
    match VerifyBodyGetObjectIfMatch res objectBody shouldFail with
    | some e => some e
    | none => VerifyStatusGetObjectIfMatch res expectedStatus

/-- Statement of the spec's claimed check order for put-object, written
from the spec's words ("status → headers → body, each returning at the
first failing check") for comparison with `putObjectVerify`. -/
def specOrderPutObjectVerify (res : HttpResponse) (expectedStatusCode : Nat) :
    Option S3Err :=
  match verifyStatusPutObject res.statusCode expectedStatusCode with
  | some e => some e
  | none =>
    match verifyHeaderPutObject res.header with
    | some e => some e
    | none => verifyBodyPutObject res.body

/-- Statement of the spec's claimed check order for upload-part, written
from the spec's words for comparison with `uploadPartVerify`. -/
def specOrderUploadPartVerify (res : HttpResponse) (expectedStatusCode : Nat) :
    Option S3Err :=
  match verifyStatusUploadPart res.statusCode expectedStatusCode with
  | some e => some e
  | none =>
    match verifyHeaderUploadPart res.header with
    | some e => some e
    | none => verifyBodyUploadPart res.body

/- Request model and the request constructors. -/

/-- Server configuration, immutable per run (endpoint, region,
credentials; the shared network client is represented by the `exec`
oracles given to the task embeddings). -/
structure ServerConfig where
  endpoint : String
  region : String
  access : String
  secret : String
  deriving DecidableEq, Repr

/-- Identity header value injected into requests.  The constant lives in
a source file not supplied; only the fact that it is a fixed non-empty
string matters. -/
def appUserAgent : String := "s3verify"

/-- Hex encoding of a byte string, mirroring `hex.EncodeToString`. -/
def hexEncode (b : Bytes) : String :=
  String.join (b.map (fun v => (Nat.toDigits 16 (v % 256)).asString))

/-- Modelled from the spec: Content-MD5 carries the base64 encoding of
the body checksum.  The base64 primitive is an external collaborator; it
is modelled as an injective deterministic encoding since no claim
depends on its exact output. -/
def base64Encode (b : Bytes) : String :=
  "b64-" ++ hexEncode b

/-- Modelled from the spec: `computeHash` (the Digest Computer, defined
in a source file not supplied) produces the content checksum, the
payload hash and the content length of a byte payload; it is pure, and
over an in-memory byte reader the read-error return of the Go function
is dead, so it is modelled as total.  The cryptographic digest
primitives are external collaborators; they are modelled as the
identity on the payload, since no claim depends on digest values. -/
def computeHash (payload : Bytes) : Bytes × Bytes × Int :=
  (payload, payload, (payload.length : Int))

/-- Model of the repository's own `Request` struct: a protocol-neutral
bag of bucket, key, query parameters, headers and body. -/
structure Request where
  bucketName : String := ""
  objectName : String := ""
  queryValues : List (String × String) := []
  customHeader : Header := []
  contentLength : Int := 0
  contentBody : Bytes := []
  deriving DecidableEq, Repr

/-- Mirrors `newPutObjectReq`: sets Content-MD5, X-Amz-Content-Sha256
and User-Agent, the content length and the body. -/
def newPutObjectReq (_config : ServerConfig) (bucketName objectName : String)
    (objectData : Bytes) : Request :=
  let h := computeHash objectData
  { bucketName := bucketName
    objectName := objectName
    customHeader :=
      ((Header.set [] "Content-MD5" (base64Encode h.1)).set
        "X-Amz-Content-Sha256" (hexEncode h.2.1)).set "User-Agent" appUserAgent
    contentLength := h.2.2
    contentBody := objectData }

/-- Mirrors `newUploadPartReq`: sets the partNumber and uploadId query
values and the X-Amz-Content-Sha256 and Content-MD5 headers (and no
User-Agent header). -/
def newUploadPartReq (_config : ServerConfig) (bucketName objectName uploadID : String)
    (partNumber : Int) (partData : Bytes) : Request :=
  let h := computeHash partData
  { bucketName := bucketName
    objectName := objectName
    queryValues :=
      (Header.set (Header.set [] "partNumber" (toString partNumber)) "uploadId" uploadID)
    customHeader :=
      (Header.set (Header.set [] "X-Amz-Content-Sha256" (hexEncode h.2.1))
        "Content-MD5" (base64Encode h.1))
    contentLength := h.2.2
    contentBody := partData }

/-- Mirrors `newGetObjectRangeReq`: sets Range, User-Agent and
X-Amz-Content-Sha256 headers; the hash is computed over the empty body. -/
def newGetObjectRangeReq (_config : ServerConfig) (bucketName objectName : String)
    (startRange endRange : Int) : Request :=
  let h := computeHash []
  { bucketName := bucketName
    objectName := objectName
    customHeader :=
      ((Header.set [] "Range"
          ("bytes=" ++ toString startRange ++ "-" ++ toString endRange)).set
        "User-Agent" appUserAgent).set "X-Amz-Content-Sha256" (hexEncode h.2.1) }

/-- Mirrors `newGetObjectIfNoneMatchReq`: sets If-None-Match, User-Agent
and X-Amz-Content-Sha256 headers. -/
def newGetObjectIfNoneMatchReq (_config : ServerConfig) (bucketName objectName ETag : String) :
    Request :=
  let h := computeHash []
  { bucketName := bucketName
    objectName := objectName
    customHeader :=
      ((Header.set [] "If-None-Match" ETag).set "User-Agent" appUserAgent).set
        "X-Amz-Content-Sha256" (hexEncode h.2.1) }

/-- Format of `time.Time.Format(http.TimeFormat)`; time values are
modelled as naturals and the formatting primitive is external, so the
formatted text is modelled as the decimal rendering. -/
def httpTimeFormat (t : Nat) : String := toString t

/-- Mirrors `newGetObjectIfModifiedSinceReq`: sets X-Amz-Content-Sha256,
If-Modified-Since and User-Agent headers. -/
def newGetObjectIfModifiedSinceReq (_config : ServerConfig) (bucketName objectName : String)
    (lastModified : Nat) : Request :=
  let h := computeHash []
  { bucketName := bucketName
    objectName := objectName
    customHeader :=
      ((Header.set [] "X-Amz-Content-Sha256" (hexEncode h.2.1)).set
        "If-Modified-Since" (httpTimeFormat lastModified)).set "User-Agent" appUserAgent }

/-- Mirrors `newRemoveObjectReq`: sets User-Agent and
X-Amz-Content-Sha256 headers. -/
def newRemoveObjectReq (_config : ServerConfig) (bucketName objectName : String) : Request :=
  let h := computeHash []
  { bucketName := bucketName
    objectName := objectName
    customHeader :=
      (Header.set (Header.set [] "User-Agent" appUserAgent)
        "X-Amz-Content-Sha256" (hexEncode h.2.1)) }

/-- Tests whether a header name is present at all (regardless of its
value); `Header.set` always records the name structurally. -/
def Header.has (h : Header) (name : String) : Bool :=
  h.any (fun p => p.1 = name)

/-- Number of discriminating headers (the conditional and range
headers named by the spec) present in a header table. -/
def discriminatingCount (h : Header) : Nat :=
  (["If-Match", "If-None-Match", "If-Modified-Since", "Range"].filter
    (fun n => Header.has h n)).length

/- Task embeddings.  Each goroutine body becomes a function from its
inputs and an execution oracle (the outcome of each network call) to an
explicit effect record: the message sent on the result channel, the
registry writes performed in the task context, and the
resource-acquisition events (`acquire i` when a response descriptor is
obtained, `release i` when `closeResponse` runs for it). -/

/-- Resource events of a task: obtaining and closing response bodies. -/
inductive ResEv
  | acquire (id : Nat)
  | release (id : Nat)
  deriving DecidableEq, Repr

/-- Model of the repository's `ObjectInfo` fixture record. -/
structure ObjectInfo where
  key : String := ""
  body : Bytes := []
  etag : String := ""
  size : Int := 0
  lastModified : Nat := 0
  deriving DecidableEq, Repr

/-- Effect record of one put-object goroutine. -/
structure PutObjectTaskOut where
  events : List ResEv
  regWrites : List (Nat × ObjectInfo)
  sent : Option S3Err
  deriving DecidableEq, Repr

/-- Mirrors the goroutine body launched by `mainPutObject` for index
`cur`: build the object, build the request, execute it, close the
response via defer, verify, and on success write `objects[cur]` from the
task context before sending nil on the error channel.  `exec` is the
oracle for `config.execRequest` (`none` is a transport failure). -/
def putObjectTask (config : ServerConfig) (bucketName : String) (cur : Nat)
    (randomBody : Bytes) (exec : String → Request → Option HttpResponse) :
    PutObjectTaskOut :=
  let object : ObjectInfo :=
    { key := "s3verify-put-parallel" ++ toString cur, body := randomBody }
  let req := newPutObjectReq config bucketName object.key object.body
  match exec "PUT" req with
  | none => { events := [], regWrites := [], sent := some .transport }
  | some res =>
    match putObjectVerify res 200 with
    | some e =>
      { events := [.acquire 0, .release 0], regWrites := [], sent := some e }
    | none =>
      { events := [.acquire 0, .release 0]
        regWrites := [(cur, object)]
        sent := none }

/-- Model of the repository's `objectPart` record. -/
structure ObjectPart where
  partNumber : Int := 0
  size : Int := 0
  etag : String := ""
  deriving DecidableEq, Repr

/-- Model of the repository's `completePart` record. -/
structure CompletePart where
  etag : String := ""
  partNumber : Int := 0
  deriving DecidableEq, Repr

/-- Model of the repository's `completeMultipartUpload` record. -/
structure CompleteMultipartUpload where
  parts : List CompletePart := []
  deriving DecidableEq, Repr

/-- Model of the repository's `partChannel` message: the originating
index, the produced part and the error (or nil). -/
structure PartChannelMsg where
  index : Nat
  objPart : ObjectPart
  err : Option S3Err
  deriving DecidableEq, Repr

/-- Removes one leading and one trailing double quote, mirroring the
`strings.TrimPrefix`/`TrimSuffix` pair applied to the ETag header. -/
def trimQuotes (s : String) : String :=
  let s1 := if s.startsWith "\"" then s.drop 1 else s
  if s1.endsWith "\"" then s1.dropRight 1 else s1

/-- Effect record of one upload-part goroutine. -/
structure UploadPartTaskOut where
  events : List ResEv
  regWrites : List (Nat × ObjectPart)
  sent : PartChannelMsg
  deriving DecidableEq, Repr

/-- Mirrors the goroutine body launched by `mainUploadPart` for index
`cur`: the part always carries PartNumber 1 and the size of the random
data; on any failure the partChannel message carries the error; on
success the ETag is read from the response header with its quotes
stripped.  The task performs no registry write: both `objectParts` and
`complMultipartUploads` are only touched by the receive loop.
`readFullOk` is the oracle for the `io.ReadFull(crand.Reader, ...)`
call, `exec` for `config.execRequest`. -/
def uploadPartTask (config : ServerConfig) (bucketName objectKey objectUploadID : String)
    (cur : Nat) (objectData : Bytes) (readFullOk : Bool)
    (exec : String → Request → Option HttpResponse) : UploadPartTaskOut :=
  let part0 : ObjectPart := { partNumber := 1, size := (objectData.length : Int) }
  if !readFullOk then
    { events := [], regWrites := []
      sent := { index := cur, objPart := part0, err := some .readFull } }
  else
    let req := newUploadPartReq config bucketName objectKey objectUploadID 1 objectData
    match exec "PUT" req with
    | none =>
      { events := [], regWrites := []
        sent := { index := cur, objPart := part0, err := some .transport } }
    | some res =>
      match uploadPartVerify res 200 with
      | some e =>
        { events := [.acquire 0, .release 0], regWrites := []
          sent := { index := cur, objPart := part0, err := some e } }
      | none =>
        let part := { part0 with etag := trimQuotes (res.header.get "ETag") }
        { events := [.acquire 0, .release 0], regWrites := []
          sent := { index := cur, objPart := part, err := none } }

/- Aggregation loops. -/

/-- Mirrors the receive loop shared by `mainPutObject`,
`mainGetObjectIfNoneMatch`, `mainGetObjectIfModifiedSince`,
`mainGetObjectRange` and (three times) `mainRemoveObjectExists`:
`count` starts at N and decrements per receive; a received error prints
the message and returns false at once.  The channel is never closed, so
a receive is modelled by consuming the next element of the
receive-ordered list; `none` models the loop blocking forever because
fewer results than `count` will ever arrive.  The returned pair is the
loop's boolean outcome and the number of receives it performed. -/
def drainErrCh : Nat → List (Option S3Err) → Option (Bool × Nat)
  | 0, _ => some (true, 0)
  | _ + 1, [] => none
  | n + 1, r :: rs =>
    match r with
    | some _ => some (false, 1)
    | none =>
      match drainErrCh n rs with
      | none => none
      | some (b, k) => some (b, k + 1)

/-- Registry state touched by the upload-part receive loop. -/
structure UploadPartAggState where
  objectParts : List ObjectPart := []
  complMultipartUploads : List CompleteMultipartUpload := []
  deriving DecidableEq, Repr

/-- Conversion performed in the receive loop of `mainUploadPart`: the
completed part keeps the ETag and part number of the uploaded part. -/
def complPartOf (p : ObjectPart) : CompletePart :=
  { etag := p.etag, partNumber := p.partNumber }

/-- One iteration body of the `mainUploadPart` receive loop for a
successful result: append the part to `objectParts` and append the
completed part to the `complMultipartUploads` slot named by the
message's index. -/
def uploadPartStep (st : UploadPartAggState) (r : PartChannelMsg) : UploadPartAggState :=
  { objectParts := st.objectParts ++ [r.objPart]
    complMultipartUploads :=
      st.complMultipartUploads.set r.index
        { parts := (st.complMultipartUploads.getD r.index {}).parts ++ [complPartOf r.objPart] } }

/-- Mirrors the receive loop of `mainUploadPart`: receive `count`
results; a received error prints and returns false at once (the
remaining results are not received); a successful result is folded into
the registries via `uploadPartStep`.  `none` models blocking on a
receive that can never be served. -/
def mainUploadPartDrain : Nat → List PartChannelMsg → UploadPartAggState →
    Option (Bool × UploadPartAggState)
  | 0, _, st => some (true, st)
  | _ + 1, [], _ => none
  | n + 1, r :: rs, st =>
    match r.err with
    | some _ => some (false, st)
    | none => mainUploadPartDrain n rs (uploadPartStep st r)

/- Range probe (get-object-range.go). -/

/-- Modelled from the spec: `getObjectVerify`, defined in a source file
not supplied, is the plain-GET verifier reused by the range test; per
the spec it checks the standard headers, exact status equality and
byte-for-byte body equality against the expected bytes. -/
def getObjectVerify (res : HttpResponse) (expectedBody : Bytes)
    (expectedStatusCode : Nat) : Option S3Err :=
  match verifyStandardHeaders res.header with
  | some e => some e
  | none =>
    if res.statusCode ≠ expectedStatusCode then
      some (.badStatus expectedStatusCode res.statusCode)
    else if res.body ≠ expectedBody then
      some (.bodyMismatch expectedBody res.body)
    else none

/-- Bound selection of the range goroutine: `startRange :=
rand.Int63n(objectSize)` and `endRange := rand.Int63n(objectSize -
startRange) + startRange`.  The two draws are modelled by arbitrary
naturals `r1 r2` reduced modulo the bound, which realises exactly the
values the Go generator can produce; `size` must be positive (Int63n
panics otherwise). -/
def rangeBounds (size r1 r2 : Nat) : Nat × Nat :=
  let a := r1 % size
  (a, r2 % (size - a) + a)

/-- Effect record of one range goroutine, exposing the chosen bounds and
the expected slice handed to the verifier. -/
structure RangeTaskOut where
  startRange : Nat
  endRange : Nat
  bufRange : Bytes
  events : List ResEv
  sent : Option S3Err
  deriving DecidableEq, Repr

/-- Mirrors the goroutine body launched by `mainGetObjectRange`: choose
bounds from the object size, build the range request, execute it, close
the response via defer, slice `objectBody[startRange : endRange+1]` and
verify the response against that slice with expected status 206. -/
def getObjectRangeTask (config : ServerConfig) (bucketName objectKey : String)
    (objectSize : Nat) (objectBody : Bytes) (r1 r2 : Nat)
    (exec : String → Request → Option HttpResponse) : RangeTaskOut :=
  let ab := rangeBounds objectSize r1 r2
  let req := newGetObjectRangeReq config bucketName objectKey (ab.1 : Int) (ab.2 : Int)
  let bufRange := (objectBody.drop ab.1).take (ab.2 + 1 - ab.1)
  match exec "GET" req with
  | none =>
    { startRange := ab.1, endRange := ab.2, bufRange := bufRange
      events := [], sent := some .transport }
  | some res =>
    { startRange := ab.1, endRange := ab.2, bufRange := bufRange
      events := [.acquire 0, .release 0]
      sent := getObjectVerify res bufRange 206 }

/- The If-Match flow (get-object-if-match.go).  This file predates the
Request-struct style: it keeps a package-level `*http.Request` template
and mutates it on every builder call.  Go maps are reference values, so
the template's Header map is shared between the template and every
request the builder has returned; the heap of header tables is made
explicit below, with addresses as indices. -/

/-- Heap of header tables; a Go header map value is an address here. -/
abbrev HeaderHeap := List Header

/-- Model of a Go `http.Request` as used by get-object-if-match.go: the
Header field is a reference into the header heap; URL and the signature
are tracked as plain data (`signv4.SignV4` is an external collaborator
and is modelled as marking the request signed). -/
structure HttpRequestRef where
  headerRef : Nat
  url : String
  signed : Bool
  deriving DecidableEq, Repr

/-- Package-level mutable state of get-object-if-match.go: the header
heap and the `GetObjectIfMatchReq` template variable. -/
structure IfMatchGlobals where
  heap : HeaderHeap
  globalReq : HttpRequestRef
  deriving DecidableEq, Repr

/-- Initial value of the `GetObjectIfMatchReq` package variable: a
template with the empty-body payload hash and a blank If-Match header,
not yet signed and with no URL. -/
def initIfMatchGlobals : IfMatchGlobals :=
  { heap := [Header.set (Header.set [] "X-Amz-Content-Sha256" (hexEncode (computeHash []).2.1))
      "If-Match" ""]
    globalReq := { headerRef := 0, url := "", signed := false } }

/-- Modelled from the spec: `makeTargetURL`, defined in a source file
not supplied, renders the endpoint, bucket and object into the request
URL. -/
def makeTargetURL (endpoint bucketName objectName _region : String) : String :=
  endpoint ++ "/" ++ bucketName ++ "/" ++ objectName

/-- Reads a header field of a request through the heap. -/
def readHeader (heap : HeaderHeap) (req : HttpRequestRef) (name : String) : String :=
  Header.get (heap.getD req.headerRef []) name

/-- Mirrors `NewGetObjectIfMatchReq`: mutates the If-Match entry of the
package-level template's header map in place, fills the URL, signs, and
stores the signed request back into the package variable.  `SignV4`
copies the request struct but the Header map is copied by reference, so
the returned request shares its header table with the template and with
every previously returned request. -/
def NewGetObjectIfMatchReq (st : IfMatchGlobals) (config : ServerConfig)
    (bucketName objectName ETag : String) : IfMatchGlobals × HttpRequestRef :=
  let ref := st.globalReq.headerRef
  let heap1 := st.heap.set ref (Header.set (st.heap.getD ref []) "If-Match" ETag)
  let signedReq : HttpRequestRef :=
    { headerRef := ref
      url := makeTargetURL config.endpoint bucketName objectName config.region
      signed := true }
  ({ heap := heap1, globalReq := signedReq }, signedReq)

/-- Allocation-aware view of `newPutObjectReq`: the Go builder starts
from a fresh composite literal whose header map is a fresh `http.Header{}`,
modelled by allocating a new cell in the header heap.  The returned
address is the new request's header-map reference. -/
def newPutObjectReqAlloc (heap : HeaderHeap) (config : ServerConfig)
    (bucketName objectName : String) (objectData : Bytes) :
    HeaderHeap × Nat × Request :=
  let req := newPutObjectReq config bucketName objectName objectData
  (heap ++ [req.customHeader], heap.length, req)

/-- Execution oracle for `mainGetObjectIfMatch`: the outcome of
`GetObjectIfMatchInit` (the fixture names it generates and whether it
failed), the outcome of each of the two `ExecRequest` calls, and the
outcome of `GetObjectCleanUp` (both externally defined). -/
structure IfMatchOracle where
  initErr : Option S3Err
  bucketName : String
  objectName : String
  etag : String
  buf : Bytes
  exec1 : Option HttpResponse
  exec2 : Option HttpResponse
  cleanup : Option S3Err
  deriving DecidableEq, Repr

/-- Mirrors the error-path cleanup idiom of `mainGetObjectIfMatch`: run
`GetObjectIfMatchCleanUp` and return its error if it fails, otherwise
return the original error. -/
def cleanupOr (cl : Option S3Err) (e : S3Err) : Option S3Err :=
  match cl with
  | some errC => some errC
  | none => some e

/-- Mirrors `mainGetObjectIfMatch` end to end: init fixtures, build the
good If-Match request from the package template, execute and verify it
against status "200 OK", then build the bad request with the invalid
ETag "1234567890", execute it and verify it against status
"412 Precondition Failed" with the error-body rule, cleaning up on every
exit.  The first component collects the resource events: responses are
acquired (ids 0 and 1) and — unlike every other test in the repository —
never released.  The second component is the function's returned error
(`none` means the test passed). -/
def mainGetObjectIfMatchRun (st : IfMatchGlobals) (config : ServerConfig)
    (o : IfMatchOracle) : List ResEv × Option S3Err :=
  match o.initErr with
  | some e => ([], cleanupOr o.cleanup e)
  | none =>
    let r1 := NewGetObjectIfMatchReq st config o.bucketName o.objectName o.etag
    match o.exec1 with
    | none => ([], cleanupOr o.cleanup .transport)
    | some res =>
      match GetObjectIfMatchVerify res o.buf "200 OK" false with
      | some e => ([.acquire 0], cleanupOr o.cleanup e)
      | none =>
        let _r2 := NewGetObjectIfMatchReq r1.1 config o.bucketName o.objectName "1234567890"
        match o.exec2 with
        | none => ([.acquire 0], cleanupOr o.cleanup .transport)
        | some badRes =>
          match GetObjectIfMatchVerify badRes [] "412 Precondition Failed" true with
          | some e => ([.acquire 0, .acquire 1], cleanupOr o.cleanup e)
          | none => ([.acquire 0, .acquire 1], o.cleanup)

/-- Holds when every response a task acquired is also released before
the task exits. -/
def releasesAll (evs : List ResEv) : Bool :=
  evs.all (fun ev =>
    match ev with
    | .acquire i => evs.contains (.release i)
    | .release _ => true)

/- Concrete fixtures used by counterexamples and witnesses. -/

/-- Concrete server configuration for concrete evaluations. -/
def testConfig : ServerConfig :=
  { endpoint := "http://127.0.0.1:9000", region := "us-east-1"
    access := "AKID", secret := "SECRET" }

/-- Headers that pass the standard-header check. -/
def stdOkHeader : Header :=
  [("Date", "Sat, 11 Oct 2026 00:00:00 GMT"), ("X-Amz-Request-Id", "r1"),
   ("ETag", "\"abc\"")]

/-- Successful PUT response: status 200, standard headers, empty body. -/
def okPutResponse : HttpResponse :=
  { statusCode := 200, status := "200 OK", header := stdOkHeader, body := []
    errorCode := none }

/-- Response whose status is wrong and whose headers are missing: the
status check and the header check fail with different errors. -/
def badStatusNoDateResponse : HttpResponse :=
  { statusCode := 500, status := "500 Internal Server Error", header := []
    body := [], errorCode := none }

/-- Successful conditional-pass GET response carrying body bytes. -/
def okGetResponse (b : Bytes) : HttpResponse :=
  { statusCode := 200, status := "200 OK", header := stdOkHeader, body := b
    errorCode := none }

/-- Successful 206 response carrying the requested slice. -/
def ok206Response (b : Bytes) : HttpResponse :=
  { statusCode := 206, status := "206 Partial Content", header := stdOkHeader
    body := b, errorCode := none }

/-- Conditional-fail GET response: status line 412 and an error document
whose code field is PreconditionFailed. -/
def resp412 : HttpResponse :=
  { statusCode := 412, status := "412 Precondition Failed", header := stdOkHeader
    body := [60], errorCode := some "PreconditionFailed" }

/-- Oracle of a fully successful `mainGetObjectIfMatch` run. -/
def okIfMatchOracle : IfMatchOracle :=
  { initErr := none, bucketName := "bkt", objectName := "obj", etag := "e1"
    buf := [1, 2], exec1 := some (okGetResponse [1, 2]), exec2 := some resp412
    cleanup := none }

/- Helper lemmas shared by several developments below. -/

/-- List.set followed by getD at the written index yields the written
value when the index is in range. -/
theorem getD_set_self {α : Type} (l : List α) (i : Nat) (x d : α)
    (h : i < l.length) : (l.set i x).getD i d = x := by
  induction l generalizing i with
  | nil => simp at h
  | cons a as ih =>
    cases i with
    | zero => simp [List.set, List.getD]
    | succ n =>
      simp only [List.set, List.getD] at *
      exact ih n (by simpa using h)

/-- List.set leaves getD at any other index unchanged. -/
theorem getD_set_other {α : Type} (l : List α) (i j : Nat) (x d : α)
    (h : i ≠ j) : (l.set i x).getD j d = l.getD j d := by
  induction l generalizing i j with
  | nil => simp [List.set]
  | cons a as ih =>
    cases i with
    | zero =>
      cases j with
      | zero => exact absurd rfl h
      | succ m => simp [List.set, List.getD]
    | succ n =>
      cases j with
      | zero => simp [List.set, List.getD]
      | succ m =>
        simp only [List.set, List.getD] at *
        exact ih n m (fun he => h (by simp [he]))

/-- The upload-part step preserves the number of registry slots. -/
theorem uploadPartStep_length (st : UploadPartAggState) (r : PartChannelMsg) :
    (uploadPartStep st r).complMultipartUploads.length
      = st.complMultipartUploads.length := by
  simp [uploadPartStep]

/-- Receive loop of mainUploadPart on an all-successful result list:
it receives exactly the results and folds them into the registries. -/
theorem uploadPartDrain_all_ok (rs : List PartChannelMsg) (st : UploadPartAggState)
    (hall : ∀ r ∈ rs, r.err = none) :
    mainUploadPartDrain rs.length rs st = some (true, rs.foldl uploadPartStep st) := by
  induction rs generalizing st with
  | nil => simp [mainUploadPartDrain]
  | cons r rs ih =>
    have hr : r.err = none := hall r (List.mem_cons_self r rs)
    simp only [List.length_cons, mainUploadPartDrain, hr, List.foldl_cons]
    exact ih (uploadPartStep st r) (fun x hx => hall x (List.mem_cons_of_mem r hx))

/-- Characterisation of the registry slot `j` after folding an
all-successful result list: exactly the results tagged with index `j`
are appended to that slot, in receive order. -/
theorem foldl_uploadPartStep_slot (rs : List PartChannelMsg) (st : UploadPartAggState)
    (j : Nat) (hj : j < st.complMultipartUploads.length) :
    ((rs.foldl uploadPartStep st).complMultipartUploads.getD j {}).parts
      = (st.complMultipartUploads.getD j {}).parts
        ++ (rs.filter (fun r => r.index = j)).map (fun r => complPartOf r.objPart) := by
  induction rs generalizing st with
  | nil => simp
  | cons r rs ih =>
    have hj' : j < (uploadPartStep st r).complMultipartUploads.length := by
      rw [uploadPartStep_length]; exact hj
    rw [List.foldl_cons, ih (uploadPartStep st r) hj']
    by_cases hidx : r.index = j
    · subst hidx
      have hslot : ((uploadPartStep st r).complMultipartUploads.getD r.index {}).parts
          = (st.complMultipartUploads.getD r.index {}).parts ++ [complPartOf r.objPart] := by
        simp only [uploadPartStep]
        rw [getD_set_self _ _ _ _ hj]
      rw [hslot]
      simp
    · have hslot : ((uploadPartStep st r).complMultipartUploads.getD j {})
          = st.complMultipartUploads.getD j {} := by
        simp only [uploadPartStep]
        exact getD_set_other _ _ _ _ _ hidx
      rw [hslot]
      simp [hidx]

/-- C2 counterexample: on a response whose status is wrong and whose
standard headers are missing, the put-object verifier returns the header
error, not the status error, so it does not apply its checks in the
claimed order status → headers → body. -/
theorem C2_counterexample :
    putObjectVerify badStatusNoDateResponse 200
      ≠ specOrderPutObjectVerify badStatusNoDateResponse 200 := by
  decide

/-- C2 (amended): each operation's verifier applies its three checks in
a fixed per-operation order, returning at the first failing check, but
the orders differ across operations and none is status → headers → body:
put-object checks headers, then status, then body; upload-part checks
body, then status, then headers; get-if-match checks headers, then body,
then status. -/
theorem C2_fixed_order_per_operation (res : HttpResponse) (exp : Nat)
    (expStr : String) (objectBody : Bytes) (shouldFail : Bool) :
    putObjectVerify res exp
      = [verifyHeaderPutObject res.header, verifyStatusPutObject res.statusCode exp,
         verifyBodyPutObject res.body].findSome? id
  ∧ uploadPartVerify res exp
      = [verifyBodyUploadPart res.body, verifyStatusUploadPart res.statusCode exp,
         verifyHeaderUploadPart res.header].findSome? id
  ∧ GetObjectIfMatchVerify res objectBody expStr shouldFail
      = [VerifyHeaderGetObjectIfMatch res,
         VerifyBodyGetObjectIfMatch res objectBody shouldFail,
         VerifyStatusGetObjectIfMatch res expStr].findSome? id := by
  refine ⟨?_, ?_, ?_⟩
  · unfold putObjectVerify
    cases h1 : verifyHeaderPutObject res.header <;>
      cases h2 : verifyStatusPutObject res.statusCode exp <;>
        cases h3 : verifyBodyPutObject res.body <;>
          simp [List.findSome?, h1, h2, h3]
  · unfold uploadPartVerify
    cases h1 : verifyBodyUploadPart res.body <;>
      cases h2 : verifyStatusUploadPart res.statusCode exp <;>
        cases h3 : verifyHeaderUploadPart res.header <;>
          simp [List.findSome?, h1, h2, h3]
  · unfold GetObjectIfMatchVerify
    cases h1 : VerifyHeaderGetObjectIfMatch res <;>
      cases h2 : VerifyBodyGetObjectIfMatch res objectBody shouldFail <;>
        cases h3 : VerifyStatusGetObjectIfMatch res expStr <;>
          simp [List.findSome?, h1, h2, h3]

/-- C1 counterexample: a put-object goroutine that gets a good response
writes its registry slot directly from the task context (the Go line
`objects[cur] = object` runs inside the goroutine, before the channel
send), so the fixture registries are not mutated exclusively by the
aggregation loop. -/
theorem C1_counterexample :
    (putObjectTask testConfig "bkt" 3 [] (fun _ _ => some okPutResponse)).regWrites
      ≠ [] := by
  decide

/-- C1 (amended): upload-part tasks never write a registry slot — both
upload-part registries are mutated only by the receive loop — but each
put-object task writes the objects registry directly from the goroutine;
every such direct write targets only the task's own slot `cur`. -/
theorem C1_registry_writers (config : ServerConfig)
    (bucketName objectKey objectUploadID : String) (cur : Nat)
    (objectData randomBody : Bytes) (readFullOk : Bool)
    (exec : String → Request → Option HttpResponse) :
    (uploadPartTask config bucketName objectKey objectUploadID cur objectData
        readFullOk exec).regWrites = []
  ∧ ((putObjectTask config bucketName cur randomBody exec).regWrites.all
      (fun w => w.1 = cur)) = true := by
  constructor
  · unfold uploadPartTask
    cases readFullOk with
    | false => simp
    | true =>
      simp only [Bool.not_true, Bool.false_eq_true, if_false]
      cases hx : exec "PUT"
          (newUploadPartReq config bucketName objectKey objectUploadID 1 objectData) with
      | none => simp
      | some res =>
        cases hv : uploadPartVerify res 200 <;> simp [hv]
  · unfold putObjectTask
    simp only []
    cases hx : exec "PUT" (newPutObjectReq config bucketName
        ("s3verify-put-parallel" ++ toString cur) randomBody) with
    | none => simp
    | some res =>
      cases hv : putObjectVerify res 200 <;> simp [hv]

/-- C3 counterexample: with two launched tasks and the first received
result an error, the aggregation loop of mainPutObject marks the test
failed but performs only one receive before returning, so it does not
receive all N results. -/
theorem C3_counterexample :
    drainErrCh 2 [some S3Err.transport, none] = some (false, 1)
  ∧ (1 : Nat) ≠ 2 := by
  decide

/-- C3 (amended): in every test case's aggregation loop, the first error
encountered in receive order marks the test case failed, and the loop
then returns immediately — after exactly (position of the first error)+1
receives — abandoning the remaining results rather than draining all N;
when no error arrives the loop performs exactly N receives.  The
upload-part receive loop likewise returns at once on an error result,
leaving the registries untouched by the erroring result and not
consuming the rest. -/
theorem C3_first_error_stops_loop (n m : Nat) (pre post rs : List (Option S3Err))
    (e : S3Err) (pr : PartChannelMsg) (prs : List PartChannelMsg)
    (st : UploadPartAggState)
    (hpre : ∀ x ∈ pre, x = none) (hn : pre.length < n)
    (hall : ∀ x ∈ rs, x = none) (hlen : n ≤ rs.length)
    (herr : pr.err = some e) :
    drainErrCh n (pre ++ some e :: post) = some (false, pre.length + 1)
  ∧ drainErrCh n rs = some (true, n)
  ∧ mainUploadPartDrain (m + 1) (pr :: prs) st = some (false, st) := by
  refine ⟨?_, ?_, ?_⟩
  · clear hall hlen herr
    induction pre generalizing n with
    | nil =>
      cases n with
      | zero => omega
      | succ k => simp [drainErrCh]
    | cons x pre ih =>
      have hx : x = none := hpre x (List.mem_cons_self x pre)
      subst hx
      cases n with
      | zero => omega
      | succ k =>
        have hrec := ih k (fun y hy => hpre y (List.mem_cons_of_mem none hy))
          (Nat.lt_of_succ_lt_succ (by simpa using hn))
        simp only [List.cons_append, drainErrCh, List.length_cons]
        rw [show pre.append (some e :: post) = pre ++ some e :: post from rfl, hrec]
  · clear hpre hn herr
    induction n generalizing rs with
    | zero => simp [drainErrCh]
    | succ k ih =>
      cases rs with
      | nil => simp at hlen
      | cons x xs =>
        have hx : x = none := hall x (List.mem_cons_self x xs)
        subst hx
        have hrec := ih xs (fun y hy => hall y (List.mem_cons_of_mem none hy))
          (by simpa using Nat.le_of_succ_le_succ hlen)
        simp [drainErrCh, hrec]
  · simp [mainUploadPartDrain, herr]

/-- C3 amended-claim witness: the theorem applied at a one-task loop
whose only result is an error, and a one-task loop whose only result is
success. -/
theorem C3_first_error_stops_loop_witness :
    (∀ x ∈ ([] : List (Option S3Err)), x = none)
  ∧ List.length ([] : List (Option S3Err)) < 1
  ∧ (∀ x ∈ [(none : Option S3Err)], x = none)
  ∧ 1 ≤ List.length [(none : Option S3Err)]
  ∧ ({ index := 0, objPart := {}, err := some S3Err.transport } : PartChannelMsg).err
      = some S3Err.transport
  ∧ (drainErrCh 1 ([] ++ some S3Err.transport :: []) = some (false, List.length ([] : List (Option S3Err)) + 1)
     ∧ drainErrCh 1 [(none : Option S3Err)] = some (true, 1)
     ∧ mainUploadPartDrain (0 + 1)
         ([{ index := 0, objPart := {}, err := some S3Err.transport }] : List PartChannelMsg) {}
         = some (false, {})) := by
  refine ⟨by decide, by decide, by decide, by decide, by decide, ?_⟩
  exact C3_first_error_stops_loop 1 0 [] [] [none] S3Err.transport
    { index := 0, objPart := {}, err := some S3Err.transport } [] {}
    (by decide) (by decide) (by decide) (by decide) (by decide)

/-- C4 counterexample: a fully successful run of mainGetObjectIfMatch
obtains two response descriptors from the executor and exits without
releasing either — no closeResponse call exists on any of its paths. -/
theorem C4_counterexample :
    ResEv.acquire 0 ∈ (mainGetObjectIfMatchRun initIfMatchGlobals testConfig okIfMatchOracle).1
  ∧ ResEv.acquire 1 ∈ (mainGetObjectIfMatchRun initIfMatchGlobals testConfig okIfMatchOracle).1
  ∧ ResEv.release 0 ∉ (mainGetObjectIfMatchRun initIfMatchGlobals testConfig okIfMatchOracle).1
  ∧ ResEv.release 1 ∉ (mainGetObjectIfMatchRun initIfMatchGlobals testConfig okIfMatchOracle).1 := by
  decide

/-- C4 (amended): the goroutine-based tasks (put-object, upload-part,
range) release every response they obtain before exit, on every path,
via the deferred closeResponse; mainGetObjectIfMatch however never
releases the responses it obtains. -/
theorem C4_tasks_release_responses (config : ServerConfig)
    (bucketName objectKey objectUploadID : String) (cur objectSize r1 r2 : Nat)
    (objectData randomBody objectBody : Bytes) (readFullOk : Bool)
    (exec : String → Request → Option HttpResponse) :
    releasesAll (putObjectTask config bucketName cur randomBody exec).events = true
  ∧ releasesAll (uploadPartTask config bucketName objectKey objectUploadID cur
      objectData readFullOk exec).events = true
  ∧ releasesAll (getObjectRangeTask config bucketName objectKey objectSize
      objectBody r1 r2 exec).events = true := by
  refine ⟨?_, ?_, ?_⟩
  · unfold putObjectTask
    simp only []
    cases hx : exec "PUT" (newPutObjectReq config bucketName
        ("s3verify-put-parallel" ++ toString cur) randomBody) with
    | none => rfl
    | some res =>
      dsimp only
      cases hv : putObjectVerify res 200 <;> rfl
  · unfold uploadPartTask
    simp only []
    cases readFullOk with
    | false => rfl
    | true =>
      simp only [Bool.not_true, Bool.false_eq_true, if_false]
      cases hx : exec "PUT"
          (newUploadPartReq config bucketName objectKey objectUploadID 1 objectData) with
      | none => rfl
      | some res =>
        dsimp only
        cases hv : uploadPartVerify res 200 <;> rfl
  · unfold getObjectRangeTask
    simp only []
    cases hx : exec "GET" (newGetObjectRangeReq config bucketName objectKey
        ((rangeBounds objectSize r1 r2).1 : Int) ((rangeBounds objectSize r1 r2).2 : Int)) with
    | none => rfl
    | some res => rfl

/-- C5 counterexample: the upload-part request constructor does not set
the identity (User-Agent) header at all. -/
theorem C5_counterexample :
    Header.has (newUploadPartReq testConfig "bkt" "obj" "uid" 1 [1, 2]).customHeader
      "User-Agent" = false := by
  decide

/-- C5 (amended): every request constructor sets the payload-hash
(X-Amz-Content-Sha256) header; all of them except newUploadPartReq and
NewGetObjectIfMatchReq also set the identity (User-Agent) header, while
those two set no User-Agent at all (the If-Match template carries only
the payload hash and If-Match); the conditional and range constructors
add exactly one discriminating header each, the plain PUT and DELETE
constructors add none, and the upload-part constructor adds no
discriminating header but sets exactly the partNumber and uploadId
query parameters. -/
theorem C5_constructor_headers (config : ServerConfig) (b o uid etag : String)
    (pn a z : Int) (d : Bytes) (t : Nat) :
    Header.has (newPutObjectReq config b o d).customHeader "X-Amz-Content-Sha256" = true
  ∧ Header.has (newUploadPartReq config b o uid pn d).customHeader "X-Amz-Content-Sha256" = true
  ∧ Header.has (newGetObjectRangeReq config b o a z).customHeader "X-Amz-Content-Sha256" = true
  ∧ Header.has (newGetObjectIfNoneMatchReq config b o etag).customHeader "X-Amz-Content-Sha256" = true
  ∧ Header.has (newGetObjectIfModifiedSinceReq config b o t).customHeader "X-Amz-Content-Sha256" = true
  ∧ Header.has (newRemoveObjectReq config b o).customHeader "X-Amz-Content-Sha256" = true
  ∧ Header.get (newPutObjectReq config b o d).customHeader "User-Agent" = appUserAgent
  ∧ Header.get (newGetObjectRangeReq config b o a z).customHeader "User-Agent" = appUserAgent
  ∧ Header.get (newGetObjectIfNoneMatchReq config b o etag).customHeader "User-Agent" = appUserAgent
  ∧ Header.get (newGetObjectIfModifiedSinceReq config b o t).customHeader "User-Agent" = appUserAgent
  ∧ Header.get (newRemoveObjectReq config b o).customHeader "User-Agent" = appUserAgent
  ∧ Header.has (newUploadPartReq config b o uid pn d).customHeader "User-Agent" = false
  ∧ discriminatingCount (newPutObjectReq config b o d).customHeader = 0
  ∧ discriminatingCount (newRemoveObjectReq config b o).customHeader = 0
  ∧ discriminatingCount (newUploadPartReq config b o uid pn d).customHeader = 0
  ∧ discriminatingCount (newGetObjectRangeReq config b o a z).customHeader = 1
  ∧ discriminatingCount (newGetObjectIfNoneMatchReq config b o etag).customHeader = 1
  ∧ discriminatingCount (newGetObjectIfModifiedSinceReq config b o t).customHeader = 1
  ∧ Header.get (newUploadPartReq config b o uid pn d).queryValues "partNumber" = toString pn
  ∧ Header.get (newUploadPartReq config b o uid pn d).queryValues "uploadId" = uid
  ∧ (newPutObjectReq config b o d).queryValues = []
  ∧ (newGetObjectRangeReq config b o a z).queryValues = []
  ∧ (newGetObjectIfNoneMatchReq config b o etag).queryValues = []
  ∧ (newGetObjectIfModifiedSinceReq config b o t).queryValues = []
  ∧ (newRemoveObjectReq config b o).queryValues = []
  ∧ Header.has
      ((NewGetObjectIfMatchReq initIfMatchGlobals config b o etag).1.heap.getD
        (NewGetObjectIfMatchReq initIfMatchGlobals config b o etag).2.headerRef [])
      "X-Amz-Content-Sha256" = true
  ∧ Header.has
      ((NewGetObjectIfMatchReq initIfMatchGlobals config b o etag).1.heap.getD
        (NewGetObjectIfMatchReq initIfMatchGlobals config b o etag).2.headerRef [])
      "User-Agent" = false
  ∧ Header.get
      ((NewGetObjectIfMatchReq initIfMatchGlobals config b o etag).1.heap.getD
        (NewGetObjectIfMatchReq initIfMatchGlobals config b o etag).2.headerRef [])
      "If-Match" = etag
  ∧ discriminatingCount
      ((NewGetObjectIfMatchReq initIfMatchGlobals config b o etag).1.heap.getD
        (NewGetObjectIfMatchReq initIfMatchGlobals config b o etag).2.headerRef []) = 1 := by
  simp [newPutObjectReq, newUploadPartReq, newGetObjectRangeReq,
    newGetObjectIfNoneMatchReq, newGetObjectIfModifiedSinceReq, newRemoveObjectReq,
    NewGetObjectIfMatchReq, initIfMatchGlobals,
    Header.has, Header.get, Header.set, discriminatingCount, List.filter, List.any,
    List.find?]

/-- C6: the upload-part aggregation loop writes every received part into
the completed-multipart-upload slot named by the result's explicit index
tag: after receiving an all-successful result list in any receive order,
slot j holds exactly the parts of the results tagged with index j,
appended in receive order — arrival order never selects the slot. -/
theorem C6_index_addressed_aggregation (rs : List PartChannelMsg)
    (st : UploadPartAggState) (j : Nat)
    (hall : ∀ r ∈ rs, r.err = none)
    (hj : j < st.complMultipartUploads.length) :
    mainUploadPartDrain rs.length rs st = some (true, rs.foldl uploadPartStep st)
  ∧ ((rs.foldl uploadPartStep st).complMultipartUploads.getD j {}).parts
      = (st.complMultipartUploads.getD j {}).parts
        ++ (rs.filter (fun r => r.index = j)).map (fun r => complPartOf r.objPart) := by
  exact ⟨uploadPartDrain_all_ok rs st hall, foldl_uploadPartStep_slot rs st j hj⟩

/-- C6 witness: two successful results arriving out of index order (the
result of slot 1 first) still land in their own slots. -/
theorem C6_index_addressed_aggregation_witness :
    (∀ r ∈ [({ index := 1, objPart := { partNumber := 1, size := 7, etag := "e1" }, err := none } : PartChannelMsg),
            { index := 0, objPart := { partNumber := 1, size := 9, etag := "e0" }, err := none }], r.err = none)
  ∧ 0 < ({ objectParts := [], complMultipartUploads := [{}, {}] } : UploadPartAggState).complMultipartUploads.length
  ∧ (mainUploadPartDrain
        (List.length [({ index := 1, objPart := { partNumber := 1, size := 7, etag := "e1" }, err := none } : PartChannelMsg),
          { index := 0, objPart := { partNumber := 1, size := 9, etag := "e0" }, err := none }])
        [{ index := 1, objPart := { partNumber := 1, size := 7, etag := "e1" }, err := none },
         { index := 0, objPart := { partNumber := 1, size := 9, etag := "e0" }, err := none }]
        { objectParts := [], complMultipartUploads := [{}, {}] }
        = some (true,
            List.foldl uploadPartStep
              { objectParts := [], complMultipartUploads := [{}, {}] }
              [{ index := 1, objPart := { partNumber := 1, size := 7, etag := "e1" }, err := none },
               { index := 0, objPart := { partNumber := 1, size := 9, etag := "e0" }, err := none }])
     ∧ ((List.foldl uploadPartStep
            { objectParts := [], complMultipartUploads := [{}, {}] }
            [{ index := 1, objPart := { partNumber := 1, size := 7, etag := "e1" }, err := none },
             { index := 0, objPart := { partNumber := 1, size := 9, etag := "e0" }, err := none }]).complMultipartUploads.getD 0 {}).parts
          = (({ objectParts := [], complMultipartUploads := [{}, {}] } : UploadPartAggState).complMultipartUploads.getD 0 {}).parts
            ++ (List.filter (fun r => r.index = 0)
                  [({ index := 1, objPart := { partNumber := 1, size := 7, etag := "e1" }, err := none } : PartChannelMsg),
                   { index := 0, objPart := { partNumber := 1, size := 9, etag := "e0" }, err := none }]).map
                (fun r => complPartOf r.objPart)) := by
  refine ⟨by decide, by decide, ?_⟩
  exact C6_index_addressed_aggregation
    [{ index := 1, objPart := { partNumber := 1, size := 7, etag := "e1" }, err := none },
     { index := 0, objPart := { partNumber := 1, size := 9, etag := "e0" }, err := none }]
    { objectParts := [], complMultipartUploads := [{}, {}] } 0 (by decide) (by decide)

/-- C10: every upload-part task produces a part that carries PartNumber
1, and when the receive loop consumes one successful result per slot
index (each slot's index appearing exactly once) over initially empty
slots, each completed-multipart-upload slot ends with a Parts list of
length exactly 1, whose sole entry has part number 1. -/
theorem C10_single_part_per_slot (config : ServerConfig)
    (b okKey uid : String) (cur : Nat) (data : Bytes) (rf : Bool)
    (exec : String → Request → Option HttpResponse)
    (rs : List PartChannelMsg) (st : UploadPartAggState) (j : Nat)
    (hall : ∀ r ∈ rs, r.err = none)
    (hpn : ∀ r ∈ rs, r.objPart.partNumber = 1)
    (hj : j < st.complMultipartUploads.length)
    (hinit : (st.complMultipartUploads.getD j {}).parts = [])
    (honce : (rs.filter (fun r => r.index = j)).length = 1) :
    (uploadPartTask config b okKey uid cur data rf exec).sent.objPart.partNumber = 1
  ∧ mainUploadPartDrain rs.length rs st = some (true, rs.foldl uploadPartStep st)
  ∧ ((rs.foldl uploadPartStep st).complMultipartUploads.getD j {}).parts.length = 1
  ∧ ∀ q ∈ ((rs.foldl uploadPartStep st).complMultipartUploads.getD j {}).parts,
      q.partNumber = 1 := by
  refine ⟨?_, uploadPartDrain_all_ok rs st hall, ?_, ?_⟩
  · unfold uploadPartTask
    simp only []
    cases rf with
    | false => rfl
    | true =>
      simp only [Bool.not_true, Bool.false_eq_true, if_false]
      cases hx : exec "PUT" (newUploadPartReq config b okKey uid 1 data) with
      | none => rfl
      | some res =>
        dsimp only
        cases hv : uploadPartVerify res 200 <;> rfl
  · rw [foldl_uploadPartStep_slot rs st j hj, hinit]
    simpa using honce
  · intro q hq
    rw [foldl_uploadPartStep_slot rs st j hj, hinit] at hq
    simp only [List.nil_append, List.mem_map] at hq
    obtain ⟨r, hr, hq⟩ := hq
    have hrs : r ∈ rs := List.mem_of_mem_filter hr
    rw [← hq]
    simpa [complPartOf] using hpn r hrs

/-- C10 witness: a single slot receiving its single part. -/
theorem C10_single_part_per_slot_witness :
    (∀ r ∈ [({ index := 0, objPart := { partNumber := 1, size := 2, etag := "x" }, err := none } : PartChannelMsg)], r.err = none)
  ∧ (∀ r ∈ [({ index := 0, objPart := { partNumber := 1, size := 2, etag := "x" }, err := none } : PartChannelMsg)], r.objPart.partNumber = 1)
  ∧ 0 < ({ objectParts := [], complMultipartUploads := [{}] } : UploadPartAggState).complMultipartUploads.length
  ∧ (({ objectParts := [], complMultipartUploads := [{}] } : UploadPartAggState).complMultipartUploads.getD 0 {}).parts = []
  ∧ (List.filter (fun r => r.index = 0)
      [({ index := 0, objPart := { partNumber := 1, size := 2, etag := "x" }, err := none } : PartChannelMsg)]).length = 1
  ∧ ((uploadPartTask testConfig "b" "k" "u" 0 [] true (fun _ _ => none)).sent.objPart.partNumber = 1
     ∧ mainUploadPartDrain
         (List.length [({ index := 0, objPart := { partNumber := 1, size := 2, etag := "x" }, err := none } : PartChannelMsg)])
         [{ index := 0, objPart := { partNumber := 1, size := 2, etag := "x" }, err := none }]
         { objectParts := [], complMultipartUploads := [{}] }
         = some (true,
             List.foldl uploadPartStep { objectParts := [], complMultipartUploads := [{}] }
               [{ index := 0, objPart := { partNumber := 1, size := 2, etag := "x" }, err := none }])
     ∧ ((List.foldl uploadPartStep { objectParts := [], complMultipartUploads := [{}] }
           [{ index := 0, objPart := { partNumber := 1, size := 2, etag := "x" }, err := none }]).complMultipartUploads.getD 0 {}).parts.length = 1
     ∧ ∀ q ∈ ((List.foldl uploadPartStep { objectParts := [], complMultipartUploads := [{}] }
           [{ index := 0, objPart := { partNumber := 1, size := 2, etag := "x" }, err := none }]).complMultipartUploads.getD 0 {}).parts,
         q.partNumber = 1) := by
  refine ⟨by decide, by decide, by decide, by decide, by decide, ?_⟩
  exact C10_single_part_per_slot testConfig "b" "k" "u" 0 [] true (fun _ _ => none)
    [{ index := 0, objPart := { partNumber := 1, size := 2, etag := "x" }, err := none }]
    { objectParts := [], complMultipartUploads := [{}] } 0
    (by decide) (by decide) (by decide) (by decide) (by decide)

/-- C7: for a stored object whose registered size equals its body length
(len P > 0), the range goroutine chooses bounds with
startRange ≤ endRange < len P, slices the inclusive range
P[startRange..endRange] of length endRange-startRange+1 as the expected
body, and its verification succeeds exactly when the response carries
status 206 (with standard headers) and a body equal to that slice. -/
theorem C7_range_probe (P : Bytes) (r1 r2 : Nat) (config : ServerConfig)
    (bkt okKey : String) (res : HttpResponse) (hpos : 0 < P.length) :
    (getObjectRangeTask config bkt okKey P.length P r1 r2 (fun _ _ => some res)).startRange
      ≤ (getObjectRangeTask config bkt okKey P.length P r1 r2 (fun _ _ => some res)).endRange
  ∧ (getObjectRangeTask config bkt okKey P.length P r1 r2 (fun _ _ => some res)).endRange
      < P.length
  ∧ (getObjectRangeTask config bkt okKey P.length P r1 r2 (fun _ _ => some res)).bufRange
      = (P.drop (rangeBounds P.length r1 r2).1).take
          ((rangeBounds P.length r1 r2).2 + 1 - (rangeBounds P.length r1 r2).1)
  ∧ (getObjectRangeTask config bkt okKey P.length P r1 r2 (fun _ _ => some res)).bufRange.length
      = (getObjectRangeTask config bkt okKey P.length P r1 r2 (fun _ _ => some res)).endRange
        - (getObjectRangeTask config bkt okKey P.length P r1 r2 (fun _ _ => some res)).startRange + 1
  ∧ ((getObjectRangeTask config bkt okKey P.length P r1 r2 (fun _ _ => some res)).sent = none
      ↔ (verifyStandardHeaders res.header = none ∧ res.statusCode = 206
          ∧ res.body = (getObjectRangeTask config bkt okKey P.length P r1 r2
              (fun _ _ => some res)).bufRange)) := by
  have hstart : (getObjectRangeTask config bkt okKey P.length P r1 r2
      (fun _ _ => some res)).startRange = r1 % P.length := rfl
  have hend : (getObjectRangeTask config bkt okKey P.length P r1 r2
      (fun _ _ => some res)).endRange = r2 % (P.length - r1 % P.length) + r1 % P.length := rfl
  have hbuf : (getObjectRangeTask config bkt okKey P.length P r1 r2
      (fun _ _ => some res)).bufRange
      = (P.drop (r1 % P.length)).take
          (r2 % (P.length - r1 % P.length) + r1 % P.length + 1 - r1 % P.length) := rfl
  have hsent : (getObjectRangeTask config bkt okKey P.length P r1 r2
      (fun _ _ => some res)).sent
      = getObjectVerify res ((P.drop (r1 % P.length)).take
          (r2 % (P.length - r1 % P.length) + r1 % P.length + 1 - r1 % P.length)) 206 := rfl
  have ha : r1 % P.length < P.length := Nat.mod_lt r1 hpos
  have hsub : 0 < P.length - r1 % P.length := by omega
  have hbmod : r2 % (P.length - r1 % P.length) < P.length - r1 % P.length :=
    Nat.mod_lt r2 hsub
  have hb : r2 % (P.length - r1 % P.length) + r1 % P.length < P.length := by omega
  refine ⟨?_, ?_, ?_, ?_, ?_⟩
  · rw [hstart, hend]; omega
  · rw [hend]; exact hb
  · rw [hbuf]; rfl
  · rw [hbuf, hstart, hend, List.length_take, List.length_drop]; omega
  · rw [hsent, hbuf]
    unfold getObjectVerify
    cases h : verifyStandardHeaders res.header with
    | some e => simp [h]
    | none =>
      split_ifs with h1 h2 <;> simp_all

/-- C7 witness: a three-byte object with concrete random draws and the
matching 206 response. -/
theorem C7_range_probe_witness :
    0 < ([5, 6, 7] : Bytes).length
  ∧ ((getObjectRangeTask testConfig "bkt" "k" ([5, 6, 7] : Bytes).length [5, 6, 7] 2 5
        (fun _ _ => some (ok206Response [7]))).startRange
      ≤ (getObjectRangeTask testConfig "bkt" "k" ([5, 6, 7] : Bytes).length [5, 6, 7] 2 5
          (fun _ _ => some (ok206Response [7]))).endRange
  ∧ (getObjectRangeTask testConfig "bkt" "k" ([5, 6, 7] : Bytes).length [5, 6, 7] 2 5
        (fun _ _ => some (ok206Response [7]))).endRange < ([5, 6, 7] : Bytes).length
  ∧ (getObjectRangeTask testConfig "bkt" "k" ([5, 6, 7] : Bytes).length [5, 6, 7] 2 5
        (fun _ _ => some (ok206Response [7]))).bufRange
      = (([5, 6, 7] : Bytes).drop (rangeBounds ([5, 6, 7] : Bytes).length 2 5).1).take
          ((rangeBounds ([5, 6, 7] : Bytes).length 2 5).2 + 1
            - (rangeBounds ([5, 6, 7] : Bytes).length 2 5).1)
  ∧ (getObjectRangeTask testConfig "bkt" "k" ([5, 6, 7] : Bytes).length [5, 6, 7] 2 5
        (fun _ _ => some (ok206Response [7]))).bufRange.length
      = (getObjectRangeTask testConfig "bkt" "k" ([5, 6, 7] : Bytes).length [5, 6, 7] 2 5
          (fun _ _ => some (ok206Response [7]))).endRange
        - (getObjectRangeTask testConfig "bkt" "k" ([5, 6, 7] : Bytes).length [5, 6, 7] 2 5
            (fun _ _ => some (ok206Response [7]))).startRange + 1
  ∧ ((getObjectRangeTask testConfig "bkt" "k" ([5, 6, 7] : Bytes).length [5, 6, 7] 2 5
        (fun _ _ => some (ok206Response [7]))).sent = none
      ↔ (verifyStandardHeaders (ok206Response [7]).header = none
          ∧ (ok206Response [7]).statusCode = 206
          ∧ (ok206Response [7]).body
            = (getObjectRangeTask testConfig "bkt" "k" ([5, 6, 7] : Bytes).length [5, 6, 7] 2 5
                (fun _ _ => some (ok206Response [7]))).bufRange))) := by
  exact ⟨by decide, C7_range_probe [5, 6, 7] 2 5 testConfig "bkt" "k"
    (ok206Response [7]) (by decide)⟩

/-- Cleanup-then-return-error never yields a nil error. -/
theorem cleanupOr_ne_none (cl : Option S3Err) (e : S3Err) : cleanupOr cl e ≠ none := by
  cases cl <;> simp [cleanupOr]

/-- The If-Match verifier passes exactly when all three checks pass. -/
theorem GetObjectIfMatchVerify_eq_none_iff (r : HttpResponse) (ob : Bytes)
    (es : String) (sf : Bool) :
    GetObjectIfMatchVerify r ob es sf = none
      ↔ (VerifyHeaderGetObjectIfMatch r = none
          ∧ VerifyBodyGetObjectIfMatch r ob sf = none
          ∧ VerifyStatusGetObjectIfMatch r es = none) := by
  unfold GetObjectIfMatchVerify
  cases h1 : VerifyHeaderGetObjectIfMatch r <;>
    cases h2 : VerifyBodyGetObjectIfMatch r ob sf <;> simp [h1, h2]

/-- The failing-probe body check passes exactly when the decoded error
code field is PreconditionFailed. -/
theorem VerifyBody_true_none_iff (r : HttpResponse) (ob : Bytes) :
    VerifyBodyGetObjectIfMatch r ob true = none
      ↔ r.errorCode = some "PreconditionFailed" := by
  unfold VerifyBodyGetObjectIfMatch
  cases hc : r.errorCode with
  | none => simp
  | some code => by_cases h : code = "PreconditionFailed" <;> simp [h]

/-- The status-line check passes exactly on equality. -/
theorem VerifyStatus_none_iff (r : HttpResponse) (es : String) :
    VerifyStatusGetObjectIfMatch r es = none ↔ r.status = es := by
  unfold VerifyStatusGetObjectIfMatch
  by_cases h : r.status = es <;> simp [h]

/-- C8: the bad-ETag probe of mainGetObjectIfMatch is verified against
expected status "412 Precondition Failed" with the error-body rule: the
test can only pass when the bad response carries that status line and an
error document whose code field equals PreconditionFailed; a decoded
code field different from PreconditionFailed always yields a
verification error. -/
theorem C8_precondition_failed (st : IfMatchGlobals) (config : ServerConfig)
    (o : IfMatchOracle) (badRes : HttpResponse) (c : String)
    (h2 : o.exec2 = some badRes) :
    ((mainGetObjectIfMatchRun st config o).2 = none →
      badRes.status = "412 Precondition Failed"
        ∧ badRes.errorCode = some "PreconditionFailed")
  ∧ (badRes.errorCode = some c → c ≠ "PreconditionFailed" →
      VerifyBodyGetObjectIfMatch badRes [] true = some (.badErrorCode c))
  ∧ (VerifyBodyGetObjectIfMatch badRes [] true = none
      ↔ badRes.errorCode = some "PreconditionFailed") := by
  refine ⟨?_, ?_, VerifyBody_true_none_iff badRes []⟩
  · intro hrun
    unfold mainGetObjectIfMatchRun at hrun
    split at hrun
    · exact absurd hrun (cleanupOr_ne_none _ _)
    · split at hrun
      · exact absurd hrun (cleanupOr_ne_none _ _)
      · split at hrun
        · exact absurd hrun (cleanupOr_ne_none _ _)
        · split at hrun
          · rw [h2] at *; simp_all
          · rename_i x hx
            rw [h2] at hx
            cases Option.some.inj hx
            split at hrun
            · exact absurd hrun (cleanupOr_ne_none _ _)
            · rename_i hv
              have hcomp := (GetObjectIfMatchVerify_eq_none_iff badRes []
                "412 Precondition Failed" true).mp hv
              exact ⟨(VerifyStatus_none_iff badRes _).mp hcomp.2.2,
                (VerifyBody_true_none_iff badRes []).mp hcomp.2.1⟩
  · intro hc hne
    unfold VerifyBodyGetObjectIfMatch
    rw [hc]
    simp [hne]

/-- C8 witness: the successful concrete run with the 412 response. -/
theorem C8_precondition_failed_witness :
    okIfMatchOracle.exec2 = some resp412
  ∧ (((mainGetObjectIfMatchRun initIfMatchGlobals testConfig okIfMatchOracle).2 = none →
        resp412.status = "412 Precondition Failed"
          ∧ resp412.errorCode = some "PreconditionFailed")
     ∧ (resp412.errorCode = some "NoSuchKey" → "NoSuchKey" ≠ "PreconditionFailed" →
         VerifyBodyGetObjectIfMatch resp412 [] true = some (.badErrorCode "NoSuchKey"))
     ∧ (VerifyBodyGetObjectIfMatch resp412 [] true = none
         ↔ resp412.errorCode = some "PreconditionFailed")) := by
  exact ⟨by decide, C8_precondition_failed initIfMatchGlobals testConfig okIfMatchOracle
    resp412 "NoSuchKey" (by decide)⟩

/-- C9 counterexample: after a second call of NewGetObjectIfMatchReq,
the request returned by the first call reads back the second call's
ETag through its (shared) header map — the builder reuses one request
state across calls instead of creating a fresh, exclusively owned
value. -/
theorem C9_counterexample :
    readHeader
      (NewGetObjectIfMatchReq
        (NewGetObjectIfMatchReq initIfMatchGlobals testConfig "bkt" "obj" "etag-one").1
        testConfig "bkt" "obj" "etag-two").1.heap
      (NewGetObjectIfMatchReq initIfMatchGlobals testConfig "bkt" "obj" "etag-one").2
      "If-Match" = "etag-two"
  ∧ "etag-two" ≠ "etag-one" := by
  constructor
  · rfl
  · decide

/-- C9 (amended): the Request-struct builders allocate a fresh header
map per invocation (the allocation-aware view always returns a new heap
address), but NewGetObjectIfMatchReq reuses the package-level template:
every call returns a request holding the same header-map reference as
the template, so two successive calls share state, and the second call
overwrites the If-Match value observed through the first call's
request. -/
theorem C9_template_sharing (st : IfMatchGlobals) (config config2 : ServerConfig)
    (bn1 on1 bn2 on2 e1 e2 bn3 on3 : String) (d : Bytes) (heap : HeaderHeap)
    (href : st.globalReq.headerRef < st.heap.length) :
    (NewGetObjectIfMatchReq st config bn1 on1 e1).2.headerRef = st.globalReq.headerRef
  ∧ (NewGetObjectIfMatchReq
      (NewGetObjectIfMatchReq st config bn1 on1 e1).1 config2 bn2 on2 e2).2.headerRef
      = (NewGetObjectIfMatchReq st config bn1 on1 e1).2.headerRef
  ∧ readHeader
      (NewGetObjectIfMatchReq
        (NewGetObjectIfMatchReq st config bn1 on1 e1).1 config2 bn2 on2 e2).1.heap
      (NewGetObjectIfMatchReq st config bn1 on1 e1).2 "If-Match" = e2
  ∧ (newPutObjectReqAlloc heap config2 bn3 on3 d).2.1 = heap.length := by
  refine ⟨rfl, rfl, ?_, rfl⟩
  have hlen : (NewGetObjectIfMatchReq st config bn1 on1 e1).1.heap.length
      = st.heap.length := by
    simp [NewGetObjectIfMatchReq]
  unfold readHeader
  show Header.get
    (((NewGetObjectIfMatchReq st config bn1 on1 e1).1.heap.set st.globalReq.headerRef
        (Header.set ((NewGetObjectIfMatchReq st config bn1 on1 e1).1.heap.getD
          st.globalReq.headerRef []) "If-Match" e2)).getD st.globalReq.headerRef [])
    "If-Match" = e2
  rw [getD_set_self _ _ _ _ (by rw [hlen]; exact href)]
  simp [Header.get, Header.set]

/-- C9 amended-claim witness at the initial package state. -/
theorem C9_template_sharing_witness :
    initIfMatchGlobals.globalReq.headerRef < initIfMatchGlobals.heap.length
  ∧ ((NewGetObjectIfMatchReq initIfMatchGlobals testConfig "b1" "o1" "ea").2.headerRef
      = initIfMatchGlobals.globalReq.headerRef
  ∧ (NewGetObjectIfMatchReq
      (NewGetObjectIfMatchReq initIfMatchGlobals testConfig "b1" "o1" "ea").1
      testConfig "b2" "o2" "eb").2.headerRef
      = (NewGetObjectIfMatchReq initIfMatchGlobals testConfig "b1" "o1" "ea").2.headerRef
  ∧ readHeader
      (NewGetObjectIfMatchReq
        (NewGetObjectIfMatchReq initIfMatchGlobals testConfig "b1" "o1" "ea").1
        testConfig "b2" "o2" "eb").1.heap
      (NewGetObjectIfMatchReq initIfMatchGlobals testConfig "b1" "o1" "ea").2
      "If-Match" = "eb"
  ∧ (newPutObjectReqAlloc [] testConfig "b3" "o3" [1]).2.1 = List.length ([] : HeaderHeap)) := by
  exact ⟨by decide, C9_template_sharing initIfMatchGlobals testConfig testConfig
    "b1" "o1" "b2" "o2" "ea" "eb" "b3" "o3" [1] [] (by decide)⟩
